import Mathlib

/-!
# Verification of the tuya-ipc-terminal streaming engine

Shallow embedding, in Lean 4, of the parts of the `tuya-ipc-terminal`
repository that the specification's claims are about:

* the `CameraStream` lifecycle (`pkg/rtsp/server.go`),
* the RTSP `SETUP` handler and its transport negotiation (`pkg/rtsp/protocol.go`),
* the WebRTC bridge connection-state handler and `Start`/`Stop` (`pkg/rtsp/bridge.go`),
* the RTP forwarder fan-out and interleaved framing (`pkg/rtsp/forwarder.go`),
* the MQTT signaling client (`pkg/tuya/mqtt.go`, `pkg/tuya/mqttCamera.go`),
* the stream-type resolution from the skill blob (`pkg/tuya`, `GetStreamType`),
* the UDP port-pair allocator (`pkg/utils/ports.go`).

Pure computations are translated directly; stateful Go methods become
functions from an explicit state (plus, where the code performs fallible
I/O, an explicit environment recording the outcomes of the external calls)
to a new state together with a list of observable effects.
-/

namespace TuyaIPC

/-! ## Go string primitives

The RTSP transport negotiation in `protocol.go` uses `strings.Contains`,
`strings.Split` and `fmt.Sscanf("%d", ...)`.  We model them on `List Char`
(`String.data`).
-/

/-- Go `strings.HasPrefix` on character lists (`List.isPrefixOf`). -/
def hasPfx : List Char → List Char → Bool
  | [], _ => true
  | _ :: _, [] => false
  | p :: ps, c :: cs => p == c && hasPfx ps cs

/-- Go `strings.Contains s pat`: `pat` occurs as a contiguous substring of `s`. -/
def lcontains (s pat : List Char) : Bool :=
  if hasPfx pat s then true
  else match s with
    | [] => false
    | _ :: cs => lcontains cs pat

/-- Go `strings.Contains` on `String`s. -/
def goContains (s pat : String) : Bool := lcontains s.data pat.data

/-- Auxiliary worker for `splitOnL`: structural recursion on a fuel that
bounds the length of the remaining input (`sep` is nonempty, so every
recursive call strictly shrinks the input). -/
def splitOnFuel (sep : List Char) : Nat → List Char → List Char → List (List Char)
  | 0, acc, l => [acc.reverse ++ l]
  | fuel + 1, acc, l =>
    match l with
    | [] => [acc.reverse]
    | c :: cs =>
      if hasPfx sep (c :: cs) then
        acc.reverse :: splitOnFuel sep fuel [] (cs.drop (sep.length - 1))
      else
        splitOnFuel sep fuel (c :: acc) cs

/-- Go `strings.Split s sep` (for nonempty `sep`), on character lists. -/
def splitOnL (sep l : List Char) : List (List Char) :=
  match sep with
  | [] => [l]
  | s :: ss => splitOnFuel (s :: ss) (l.length + 1) [] l

/-- Character-list decimal digit test. -/
def isDig (c : Char) : Bool := '0' ≤ c && c ≤ '9'

/-- Value of a run of decimal digits. -/
def digitsVal : List Char → Nat → Nat
  | [], acc => acc
  | c :: cs, acc => digitsVal cs (acc * 10 + (c.toNat - '0'.toNat))

/-- Go `fmt.Sscanf(s, "%d", &x)`: skip leading spaces, read an optional
sign and a nonempty digit run; `none` when no integer can be read (in
which case the Go variable keeps its previous value). -/
def sscanfInt (s : List Char) : Option Int :=
  let s := s.dropWhile (· == ' ')
  match s with
  | '-' :: rest =>
    if (rest.takeWhile isDig).isEmpty then none
    else some (-(digitsVal (rest.takeWhile isDig) 0 : Int))
  | '+' :: rest =>
    if (rest.takeWhile isDig).isEmpty then none
    else some ((digitsVal (rest.takeWhile isDig) 0 : Int))
  | _ =>
    if (s.takeWhile isDig).isEmpty then none
    else some ((digitsVal (s.takeWhile isDig) 0 : Int))

/-- Go `byte(x)` on an `int`: the low 8 bits (two's complement). -/
def byteOfInt (i : Int) : Nat := (i % 256).toNat

/-! ## C1: `CameraStream` lifecycle (`pkg/rtsp/server.go`)

`CameraStream` holds `clients` (a Go map keyed by session id), the
`active`/`connecting` flags and the optional `shutdownTimer`.  Every
method below runs entirely under `cs.mutex`, so each is one atomic
transition on this state.  The timer is abstracted to the boolean
"armed" (`shutdownTimer != nil` and not yet stopped).
-/

namespace CameraStream

/-- The lock-protected mutable state of a `CameraStream`. -/
structure State where
  clients : List String
  active : Bool
  connecting : Bool
  timerArmed : Bool
deriving Repr, DecidableEq

/-- Go map assignment `cs.clients[session] = client` (keys stay unique). -/
def mapInsert (k : String) (l : List String) : List String :=
  if k ∈ l then l else k :: l

/-- Go `delete(cs.clients, sessionID)`. -/
def mapDelete (k : String) (l : List String) : List String :=
  l.filter (· ≠ k)

/-- `CameraStream.AddClient` (server.go:464): cancel any pending shutdown
timer, then insert the client.  (The `go cs.startStream()` it spawns when
the stream is inactive is a separate, later transition.) -/
def AddClient (cs : State) (session : String) : State :=
  { cs with timerArmed := false, clients := mapInsert session cs.clients }

/-- `CameraStream.stopStreamInternal` (server.go:544): no-op unless
active or connecting; otherwise clear both flags and cancel the timer. -/
def stopStreamInternal (cs : State) : State :=
  if !cs.active && !cs.connecting then cs
  else { cs with active := false, connecting := false, timerArmed := false }

/-- `CameraStream.scheduleShutdown` (server.go:578): refuse when not
active; otherwise (re)arm the shutdown timer. -/
def scheduleShutdown (cs : State) : State :=
  if !cs.active then cs
  else { cs with timerArmed := true }

/-- `CameraStream.RemoveClient` (server.go:484): delete the client and,
when no clients remain and the stream is active, schedule the shutdown. -/
def RemoveClient (cs : State) (sessionID : String) : State :=
  let cs := { cs with clients := mapDelete sessionID cs.clients }
  if cs.clients.length = 0 && cs.active then scheduleShutdown cs else cs

/-- The callback of the timer armed by `scheduleShutdown`
(server.go:591): re-check, under the stream lock, that no clients are
connected and the stream is still active before stopping; in every case
the fired timer is cleared. -/
def timerFire (cs : State) : State :=
  let cs' := if cs.clients.length = 0 && cs.active then stopStreamInternal cs else cs
  { cs' with timerArmed := false }

/-- `CameraStream.startStream` (server.go:518), run from the goroutine
spawned by `AddClient`; `bridgeOk` is the outcome of
`webrtcBridge.Start()`. -/
def startStream (cs : State) (bridgeOk : Bool) : State :=
  if cs.active then cs
  else if bridgeOk then { cs with connecting := false, active := true }
  else stopStreamInternal cs

/-- The spec invariant: an active stream with no attached clients has an
armed shutdown timer. -/
def ShutdownInv (cs : State) : Prop :=
  cs.clients = [] ∧ cs.active = true → cs.timerArmed = true

instance (cs : State) : Decidable (ShutdownInv cs) := by
  unfold ShutdownInv; infer_instance

end CameraStream

/-! ## C2/C9: RTSP `SETUP` transport negotiation (`pkg/rtsp/protocol.go:292`)

`handleSetup` mutates the per-connection `RTSPClient` and registers the
client's sink with the RTP forwarder.  The fallible externals
(`SetupUDPBackchannel`, which allocates a server port pair, and
`AddUDPClient`, which dials the client's UDP ports) are supplied as an
explicit environment; `AddTCPClient` returns `nil` on every path in the
source and so cannot fail.  The response is abstracted to its status
code plus the list of forwarder registrations performed.
-/

namespace Setup

/-- `TransportMode` (forwarder.go:16). -/
inductive TransportMode where
  | udp
  | tcp
deriving Repr, DecidableEq

/-- The `SETUP`-relevant fields of `RTSPClient` (server.go:30). -/
structure RTSPClientState where
  transportMode : TransportMode
  videoChannel : Nat
  audioChannel : Nat
  backAudioChannel : Nat
  videoPort : Int
  audioPort : Int
  setupCount : Nat
deriving Repr, DecidableEq

/-- Forwarder registrations performed by `handleSetup`. -/
inductive ForwarderReg where
  | tcpClient (videoCh audioCh backCh : Nat)
  | udpClient (videoPort audioPort : Int)
  | udpBackchannelListener (serverPort : Nat)
deriving Repr, DecidableEq

/-- Outcomes of the fallible externals called from the UDP branch. -/
structure SetupEnv where
  backchannelAlloc : Option Nat
  addUDPOk : Bool
deriving Repr, DecidableEq

/-- Status code of the response, the client state after the request and
the forwarder registrations performed. -/
structure SetupOutcome where
  status : Nat
  client : RTSPClientState
  regs : List ForwarderReg
deriving Repr, DecidableEq

/-- The interleaved channel pair parsed by the TCP branch
(protocol.go:312-343): explicit `interleaved=` channels when present
(an unparsable number leaves the Go `int` at 0; a missing RTCP channel
defaults to RTP channel + 1 in byte arithmetic), otherwise per-track
defaults video=0/1, audio=2/3, backchannel=4/5. -/
def parsedInterleavedChannels (transport : List Char) (isVideo isAudio isBack : Bool) :
    Nat × Nat :=
  if lcontains transport "interleaved=".data then
    let parts := splitOnL "interleaved=".data transport
    if parts.length > 1 then
      let channelPart := splitOnL "-".data ((splitOnL ";".data (parts.getD 1 [])).getD 0 [])
      let rtp := byteOfInt ((sscanfInt (channelPart.getD 0 [])).getD 0)
      let rtcp :=
        if channelPart.length ≥ 2 then byteOfInt ((sscanfInt (channelPart.getD 1 [])).getD 0)
        else (rtp + 1) % 256
      (rtp, rtcp)
    else (0, 0)
  else
    if isVideo then (0, 1)
    else if isAudio then (2, 3)
    else if isBack then (4, 5)
    else (0, 0)

/-- The `client_port=X-Y` pair parsed by the UDP branch
(protocol.go:374-386); both Go ints start at 0 and keep 0 when `Sscanf`
fails. -/
def parsedClientPorts (transport : List Char) : Int × Int :=
  if lcontains transport "client_port=".data then
    let parts := splitOnL "client_port=".data transport
    if parts.length > 1 then
      let portParts := splitOnL "-".data ((splitOnL ";".data (parts.getD 1 [])).getD 0 [])
      let rtp := (sscanfInt (portParts.getD 0 [])).getD 0
      let rtcp := if portParts.length ≥ 2 then (sscanfInt (portParts.getD 1 [])).getD 0 else 0
      (rtp, rtcp)
    else (0, 0)
  else (0, 0)

/-- `RTSPServer.handleSetup` (protocol.go:292-459). -/
def handleSetup (env : SetupEnv) (c : RTSPClientState) (url transport : String) :
    SetupOutcome :=
  if transport = "" then ⟨400, c, []⟩
  else
    let isBackchannel := goContains url "/backchannel"
    let isVideoTrack := goContains url "/video"
    let isAudioTrack := goContains url "/audio"
    if goContains transport "RTP/AVP/TCP" then
      -- TCP interleaved mode
      let c := { c with transportMode := TransportMode.tcp }
      let rtpChannel := (parsedInterleavedChannels transport.data
        isVideoTrack isAudioTrack isBackchannel).1
      let c :=
        if isVideoTrack then { c with videoChannel := rtpChannel }
        else if isAudioTrack then { c with audioChannel := rtpChannel }
        else if isBackchannel then { c with backAudioChannel := rtpChannel }
        else c
      -- AddTCPClient (forwarder.go:205) returns nil on every path
      ⟨200, { c with setupCount := c.setupCount + 1 },
        [ForwarderReg.tcpClient c.videoChannel c.audioChannel c.backAudioChannel]⟩
    else if goContains transport "RTP/AVP" then
      -- UDP mode
      let c := { c with transportMode := TransportMode.udp }
      let clientRTPPort := (parsedClientPorts transport.data).1
      if clientRTPPort = 0 then ⟨400, c, []⟩
      else
        let trackResult : Option (RTSPClientState × List ForwarderReg) :=
          if isVideoTrack then some ({ c with videoPort := clientRTPPort }, [])
          else if isAudioTrack then some ({ c with audioPort := clientRTPPort }, [])
          else if isBackchannel then
            match env.backchannelAlloc with
            | none => none
            | some port => some (c, [ForwarderReg.udpBackchannelListener port])
          else some (c, [])
        match trackResult with
        | none => ⟨500, c, []⟩
        | some (c, regs) =>
          if env.addUDPOk then
            ⟨200, { c with setupCount := c.setupCount + 1 },
              regs ++ [ForwarderReg.udpClient c.videoPort c.audioPort]⟩
          else ⟨500, c, regs⟩
    else ⟨461, c, []⟩

/-- The `RTSPClient` as initialised by `handleConnection` (server.go:265). -/
def initialClient : RTSPClientState :=
  { transportMode := TransportMode.udp
    videoChannel := 0
    audioChannel := 2
    backAudioChannel := 4
    videoPort := 0
    audioPort := 0
    setupCount := 0 }

end Setup

/-! ## Tuya signaling (`pkg/tuya`)

Skill blob (`api.go:246-266`), stream-type resolution (`GetStreamType`,
`IsHEVC`), the camera client's outbound frames (`mqttCamera.go`) and the
MQTT client options (`mqtt.go:47-77`).
-/

namespace Tuya

/-- `VideoSkill` (api.go:253); the fields `GetStreamType`/`IsHEVC` read. -/
structure VideoSkill where
  streamType : Int
  codecType : Int
  width : Int
  height : Int
deriving Repr, DecidableEq

/-- `AudioSkill` (api.go:246); only `codecType` is read by the core. -/
structure AudioSkill where
  codecType : Int
deriving Repr, DecidableEq

/-- `Skill` (api.go:262). -/
structure Skill where
  webrtc : Int
  audios : List AudioSkill
  videos : List VideoSkill
deriving Repr, DecidableEq

/-- The loop state of `GetStreamType` (part_006:12-15). -/
structure ScanState where
  highestResType : Int
  highestRes : Int
  lowestResType : Int
  lowestRes : Int
deriving Repr, DecidableEq

/-- One iteration of `GetStreamType`'s loop over `skill.Videos`
(part_006:17-31). -/
def scanStep (st : ScanState) (video : VideoSkill) : ScanState :=
  let res := video.width * video.height
  let st :=
    if res > st.highestRes then { st with highestResType := video.streamType, highestRes := res }
    else st
  if st.lowestRes = 0 ∨ res < st.lowestRes then
    { st with lowestResType := video.streamType, lowestRes := res }
  else st

/-- `GetStreamType` (part_006:3-41): streamType of the highest-resolution
video for "hd", of the lowest-resolution video for "sd", defaulting to 1. -/
def GetStreamType (skill : Option Skill) (streamResolution : String) : Int :=
  match skill with
  | none => 1
  | some sk =>
    if sk.videos.length = 0 then 1
    else
      let r := sk.videos.foldl scanStep ⟨1, 0, 1, 0⟩
      if streamResolution = "hd" then r.highestResType
      else if streamResolution = "sd" then r.lowestResType
      else 1

/-- `IsHEVC` (part_006:44-51): codecType 4 of the first video whose
streamType matches. -/
def IsHEVC (skill : Skill) (streamType : Int) : Bool :=
  match skill.videos.find? (fun v => v.streamType = streamType) with
  | some v => v.codecType = 4
  | none => false

/-- `OfferFrame` (mqttCamera.go:31); ICE servers are kept opaque. -/
structure OfferFrame where
  mode : String
  sdp : String
  streamType : Int
  auth : String
  token : List String
  isReplay : Int
  datachannelEnable : Bool
deriving Repr, DecidableEq

/-- `ResolutionFrame` (mqttCamera.go:51). -/
structure ResolutionFrame where
  mode : String
  cmdValue : Int
deriving Repr, DecidableEq

/-- The `msg` payloads published by `MQTTCameraClient`. -/
inductive FramePayload where
  | offer (f : OfferFrame)
  | resolution (f : ResolutionFrame)
  | speaker (cmdValue : Int)
  | candidate (candidate : String)
  | disconnect
deriving Repr, DecidableEq

/-- An outbound signaling message: header `type`, envelope `protocol`
and payload (`sendMqttMessage`, mqttCamera.go:184). -/
structure MqttOutMessage where
  messageType : String
  protocol : Nat
  payload : FramePayload
deriving Repr, DecidableEq

/-- `MQTTCameraClient.SendOffer` (mqttCamera.go:77-96): on HEVC the
stream type is overridden to 0 for "hd" and 1 otherwise;
`datachannel_enable` is `isHEVC`. -/
def SendOffer (auth : String) (token : List String) (sdp : String)
    (streamResolution : String) (streamType : Int) (isHEVC : Bool) : MqttOutMessage :=
  let streamType :=
    if isHEVC then (if streamResolution = "hd" then 0 else 1) else streamType
  { messageType := "offer"
    protocol := 302
    payload := FramePayload.offer
      { mode := "webrtc", sdp := sdp, streamType := streamType, auth := auth,
        token := token, isReplay := 0, datachannelEnable := isHEVC } }

/-- `MQTTCameraClient.SendResolution` (mqttCamera.go:105-116): protocol
312, `cmdValue` = requested resolution. -/
def SendResolution (resolution : Int) : MqttOutMessage :=
  { messageType := "resolution"
    protocol := 312
    payload := FramePayload.resolution { mode := "webrtc", cmdValue := resolution } }

/-- The paho client options built by `NewMqttClient` (mqtt.go:47-71). -/
structure MqttOptions where
  broker : String
  clientID : String
  username : String
  password : String
  autoReconnect : Bool
  connectTimeoutSeconds : Nat
  keepAliveSeconds : Nat
  cleanSession : Bool
deriving Repr, DecidableEq

/-- `NewMqttClient`'s option block (mqtt.go:54-69). -/
def NewMqttClientOptions (mobileMqttsUrl msid password : String) : MqttOptions :=
  { broker := "wss://" ++ mobileMqttsUrl ++ "/mqtt"
    clientID := "web_" ++ msid
    username := "web_" ++ msid
    password := password
    autoReconnect := true
    connectTimeoutSeconds := 10
    keepAliveSeconds := 60
    cleanSession := true }

/-- Modelled from the spec: the repository's `utils.Waiter` (package
`pkg/utils`, not present under `src/`) is a single-shot completion
channel — "Disconnects are surfaced as a terminal error through a
single-shot completion channel" (§4.3); once completed, later
completions do not change the stored outcome.  `none` is pending,
`some none` completed successfully, `some (some e)` completed with
error `e`. -/
def Waiter : Type := Option (Option String)

instance : DecidableEq Waiter := by
  unfold Waiter; infer_instance

/-- Modelled from the spec: `Waiter.Done` — record the outcome only if
none has been recorded yet (single-shot). -/
def waiterDone (w : Waiter) (outcome : Option String) : Waiter :=
  match w with
  | none => some outcome
  | some x => some x

/-- The `MQTTClient` state the disconnect path touches (mqtt.go:14-21). -/
structure MqttClientState where
  closed : Bool
  connectedWaiter : Waiter
deriving DecidableEq

/-- `MQTTClient.onDisconnect` (mqtt.go:113-121): complete the
`Connected` waiter with the error (or a generic disconnect error) and
mark the client closed. -/
def onDisconnect (st : MqttClientState) (err : Option String) : MqttClientState :=
  { closed := true
    connectedWaiter :=
      waiterDone st.connectedWaiter
        (some (match err with | some e => e | none => "mqtt client disconnected")) }

/-- `MQTTCameraClient.sendMqttMessage` (mqttCamera.go:184-187): publish
fails once the MQTT client is closed. -/
def sendMqttMessage (st : MqttClientState) (m : MqttOutMessage) : Except String MqttOutMessage :=
  if st.closed then Except.error "mqtt client is closed, send mqtt message fail"
  else Except.ok m

end Tuya

/-! ## WebRTC bridge (`pkg/rtsp/bridge.go`)

The connection-state callback installed by `setupPeerConnection`
(bridge.go:296-309) and the `Start`/`Stop` guards (bridge.go:75-191).
External calls are supplied as an environment of step outcomes;
observable side effects are recorded as action lists.
-/

namespace Bridge

/-- pion `PeerConnectionState`. -/
inductive PCState where
  | new
  | connecting
  | connected
  | disconnected
  | failed
  | closed
deriving Repr, DecidableEq

/-- Effects of the `OnConnectionStateChange` callback. -/
inductive StateChangeAction where
  | publish (m : Tuya.MqttOutMessage)
  | waiterDone
  | handleErr (msg : String)
deriving Repr, DecidableEq

/-- The `OnConnectionStateChange` handler (bridge.go:296-309): report an
error on Failed/Closed; at Connected, only for non-HEVC "hd" send the
resolution frame and release the readiness waiter. -/
def onConnectionStateChange (isHEVC : Bool) (resolution : String) (state : PCState) :
    List StateChangeAction :=
  (if state = PCState.failed ∨ state = PCState.closed then
    [StateChangeAction.handleErr "WebRTC connection failed/closed"]
  else [])
  ++ (if state = PCState.connected then
    (if !isHEVC && resolution == "hd" then
      [StateChangeAction.publish (Tuya.SendResolution 0), StateChangeAction.waiterDone]
    else [])
  else [])

/-- The `WebRTCBridge` state the `Start`/`Stop` guards read and write. -/
structure BridgeState where
  connected : Bool
  resolution : String
  streamType : Int
  isHEVC : Bool
  hasCameraClient : Bool
  hasPeerConnection : Bool
  hasMqttClient : Bool
  hasForwarder : Bool
deriving Repr, DecidableEq

/-- Steps of the `Start` sequence that reach external collaborators. -/
inductive StartStep where
  | getAppInfo
  | getMqttConfig
  | connectMqtt
  | getWebRTCConfig
  | setupPeerConnection
  | setupCameraClient
  | sendOffer
  | waitReady
deriving Repr, DecidableEq

/-- Outcomes of the external calls made by `Start` (bridge.go:85-151). -/
structure StartEnv where
  httpClientOk : Bool
  appInfo : Except String Unit
  mqttConfig : Except String Unit
  mqttConnect : Except String Unit
  mqttConnectedWait : Except String Unit
  skill : Except String Tuya.Skill
  setupPeer : Except String Unit
  offer : Except String Unit
  waiterWait : Except String Unit
deriving Repr

/-- `WebRTCBridge.Start` (bridge.go:75-157).  Returns the error result,
the bridge state afterwards, and the negotiation steps performed. -/
def Start (env : StartEnv) (st : BridgeState) :
    Except String Unit × BridgeState × List StartStep :=
  if st.connected then (Except.error "bridge already connected", st, [])
  else if env.httpClientOk = false then
    (Except.error "failed to create HTTP client", st, [])
  else match env.appInfo with
  | Except.error e => (Except.error ("failed to get app info: " ++ e), st, [StartStep.getAppInfo])
  | Except.ok _ =>
    match env.mqttConfig with
    | Except.error e => (Except.error ("failed to get MQTT config: " ++ e), st,
        [StartStep.getAppInfo, StartStep.getMqttConfig])
    | Except.ok _ =>
      match env.mqttConnect with
      | Except.error e => (Except.error ("failed to connect to MQTT: " ++ e), st,
          [StartStep.getAppInfo, StartStep.getMqttConfig, StartStep.connectMqtt])
      | Except.ok _ =>
        let st := { st with hasMqttClient := true }
        match env.mqttConnectedWait with
        | Except.error e => (Except.error ("MQTT connection failed: " ++ e), st,
            [StartStep.getAppInfo, StartStep.getMqttConfig, StartStep.connectMqtt])
        | Except.ok _ =>
          match env.skill with
          | Except.error e => (Except.error ("failed to get WebRTC config: " ++ e), st,
              [StartStep.getAppInfo, StartStep.getMqttConfig, StartStep.connectMqtt,
               StartStep.getWebRTCConfig])
          | Except.ok skill =>
            let streamType := Tuya.GetStreamType (some skill) st.resolution
            let st := { st with streamType := streamType,
                                isHEVC := Tuya.IsHEVC skill streamType }
            match env.setupPeer with
            | Except.error e => (Except.error ("failed to setup peer connection: " ++ e), st,
                [StartStep.getAppInfo, StartStep.getMqttConfig, StartStep.connectMqtt,
                 StartStep.getWebRTCConfig, StartStep.setupPeerConnection])
            | Except.ok _ =>
              let st := { st with hasPeerConnection := true, hasCameraClient := true }
              match env.offer with
              | Except.error e => (Except.error ("failed to create offer: " ++ e), st,
                  [StartStep.getAppInfo, StartStep.getMqttConfig, StartStep.connectMqtt,
                   StartStep.getWebRTCConfig, StartStep.setupPeerConnection,
                   StartStep.setupCameraClient, StartStep.sendOffer])
              | Except.ok _ =>
                match env.waiterWait with
                | Except.error e =>
                  (Except.error ("failed to establish connection: " ++ e), st,
                    [StartStep.getAppInfo, StartStep.getMqttConfig, StartStep.connectMqtt,
                     StartStep.getWebRTCConfig, StartStep.setupPeerConnection,
                     StartStep.setupCameraClient, StartStep.sendOffer, StartStep.waitReady])
                | Except.ok _ =>
                  (Except.ok (), { st with connected := true },
                    [StartStep.getAppInfo, StartStep.getMqttConfig, StartStep.connectMqtt,
                     StartStep.getWebRTCConfig, StartStep.setupPeerConnection,
                     StartStep.setupCameraClient, StartStep.sendOffer, StartStep.waitReady])

/-- Effects of `WebRTCBridge.Stop` (bridge.go:160-191). -/
inductive StopEffect where
  | sendDisconnect
  | closePeerConnection
  | stopMqtt
  | stopForwarder
deriving Repr, DecidableEq

/-- `WebRTCBridge.Stop` (bridge.go:160-191): early return when not
connected; otherwise send the disconnect frame, close the peer
connection, stop the MQTT client and the forwarder, and clear
`connected`. -/
def Stop (st : BridgeState) : BridgeState × List StopEffect :=
  if !st.connected then (st, [])
  else
    ({ st with connected := false },
      (if st.hasCameraClient then [StopEffect.sendDisconnect] else [])
      ++ (if st.hasPeerConnection then [StopEffect.closePeerConnection] else [])
      ++ (if st.hasMqttClient then [StopEffect.stopMqtt] else [])
      ++ (if st.hasForwarder then [StopEffect.stopForwarder] else []))

end Bridge

/-! ## RTP forwarder fan-out (`pkg/rtsp/forwarder.go`)

`ForwardVideoPacket`/`ForwardAudioPacket` (forwarder.go:262-346)
marshal the upstream packet once and write the same bytes to every
sink; `sendInterleavedRTP` (forwarder.go:449-465) frames TCP sinks.
The RTP wire format implemented by `pion/rtp.Packet.Marshal` is the
RFC 3550 layout.
-/

namespace Forwarder

/-- `pion/rtp.Packet`: the header fields plus payload. -/
structure RTPPacket where
  version : Nat
  padding : Bool
  extension : Bool
  marker : Bool
  payloadType : Nat
  sequenceNumber : Nat
  timestamp : Nat
  ssrc : Nat
  csrcs : List Nat
  extensionData : List Nat
  payload : List Nat
deriving Repr, DecidableEq

/-- Big-endian 16-bit serialization. -/
def be16 (n : Nat) : List Nat := [n / 256 % 256, n % 256]

/-- Big-endian 32-bit serialization. -/
def be32 (n : Nat) : List Nat :=
  [n / 2 ^ 24 % 256, n / 2 ^ 16 % 256, n / 2 ^ 8 % 256, n % 256]

/-- Flag bit. -/
def boolBit (b : Bool) : Nat := if b then 1 else 0

/-- `rtp.Packet.Marshal`: the RFC 3550 RTP wire layout — V/P/X/CC,
M/PT, sequence number, timestamp, SSRC, CSRC list, extension, payload. -/
def marshalRTP (p : RTPPacket) : List Nat :=
  (p.version % 4 * 64 + boolBit p.padding * 32 + boolBit p.extension * 16 + p.csrcs.length % 16)
  :: (boolBit p.marker * 128 + p.payloadType % 128)
  :: (be16 p.sequenceNumber ++ be32 p.timestamp ++ be32 p.ssrc
      ++ (p.csrcs.map be32).flatten
      ++ (if p.extension then p.extensionData else [])
      ++ p.payload)

/-- The sequence number carried by marshalled RTP bytes (bytes 2-3). -/
def seqOfRTPBytes : List Nat → Nat
  | _ :: _ :: s1 :: s0 :: _ => s1 * 256 + s0
  | _ => 0

/-- The SSRC carried by marshalled RTP bytes (bytes 8-11). -/
def ssrcOfRTPBytes : List Nat → Nat
  | _ :: _ :: _ :: _ :: _ :: _ :: _ :: _ :: s3 :: s2 :: s1 :: s0 :: _ =>
    ((s3 * 256 + s2) * 256 + s1) * 256 + s0
  | _ => 0

/-- The sink-relevant fields of `RTPClient` (forwarder.go:38-68); the
UDP connections and the TCP connection can be absent (`nil`). -/
structure RTPClient where
  sessionID : String
  transportMode : Setup.TransportMode
  hasVideoConn : Bool
  hasAudioConn : Bool
  hasTCPConn : Bool
  videoRTPChannel : Nat
  audioRTPChannel : Nat
  backAudioRTPChannel : Nat
deriving Repr, DecidableEq

/-- A write attempted against one sink. -/
inductive SinkWrite where
  | udp (sessionID : String) (bytes : List Nat)
  | tcpInterleaved (sessionID : String) (channel : Nat) (bytes : List Nat)
deriving Repr, DecidableEq

/-- The RTP bytes handed to the sink's socket (before TCP framing). -/
def bytesOfWrite : SinkWrite → List Nat
  | SinkWrite.udp _ b => b
  | SinkWrite.tcpInterleaved _ _ b => b

/-- `RTPForwarder.ForwardVideoPacket` (forwarder.go:262-303): marshal
the packet unchanged and write the same bytes to every client's video
sink. -/
def ForwardVideoPacket (clients : List RTPClient) (p : RTPPacket) : List SinkWrite :=
  if clients.length = 0 then []
  else
    let data := marshalRTP p
    clients.filterMap fun client =>
      if client.transportMode = Setup.TransportMode.udp then
        if client.hasVideoConn then some (SinkWrite.udp client.sessionID data) else none
      else if client.transportMode = Setup.TransportMode.tcp then
        if client.hasTCPConn then
          some (SinkWrite.tcpInterleaved client.sessionID client.videoRTPChannel data)
        else none
      else none

/-- `RTPForwarder.ForwardAudioPacket` (forwarder.go:305-346). -/
def ForwardAudioPacket (clients : List RTPClient) (p : RTPPacket) : List SinkWrite :=
  if clients.length = 0 then []
  else
    let data := marshalRTP p
    clients.filterMap fun client =>
      if client.transportMode = Setup.TransportMode.udp then
        if client.hasAudioConn then some (SinkWrite.udp client.sessionID data) else none
      else if client.transportMode = Setup.TransportMode.tcp then
        if client.hasTCPConn then
          some (SinkWrite.tcpInterleaved client.sessionID client.audioRTPChannel data)
        else none
      else none

/-- `RTPForwarder.sendInterleavedRTP` (forwarder.go:449-465): build the
4-byte header `'$' | channel | len_hi | len_lo`, append the RTP data,
and pass everything to the socket in one write (the returned list holds
one element per write call). -/
def sendInterleavedRTP (channel : Nat) (rtpData : List Nat) : List (List Nat) :=
  [(36 :: channel :: (rtpData.length / 256 % 256) :: rtpData.length % 256 :: []) ++ rtpData]

end Forwarder

/-! ## UDP port-pair allocation (`pkg/utils/ports.go`)

`GetConsecutiveUDPPorts` (ports.go:33-78): each attempt samples the OS
for an ephemeral port, rounds an odd port down, then binds the even
port and its successor.  The OS interactions of one attempt are an
`AttemptOutcome`.
-/

namespace Ports

/-- What the OS did during one allocation attempt: the ephemeral port
sampled (or `none` when the probe listen failed) and whether the two
subsequent binds succeeded. -/
structure AttemptOutcome where
  osPort : Option Nat
  rtpBindOk : Bool
  rtcpBindOk : Bool
deriving Repr, DecidableEq

/-- One iteration of the allocation loop (ports.go:41-75): round an odd
sampled port down, bind `basePort` and `basePort+1`. -/
def attemptPair (a : AttemptOutcome) : Option (Nat × Nat) :=
  match a.osPort with
  | none => none
  | some p =>
    let basePort := if p % 2 = 1 then p - 1 else p
    if a.rtpBindOk then
      if a.rtcpBindOk then some (basePort, basePort + 1) else none
    else none

/-- The allocation loop: first successful attempt wins. -/
def allocLoop : List AttemptOutcome → Option (Nat × Nat)
  | [] => none
  | a :: rest =>
    match attemptPair a with
    | some pr => some pr
    | none => allocLoop rest

/-- `PortAllocator.GetConsecutiveUDPPorts` (ports.go:33-78): loop over
at most `maxAttempts` attempts; `none` is the
"failed to allocate consecutive UDP ports after %d attempts" error. -/
def GetConsecutiveUDPPorts (attempts : List AttemptOutcome) (maxAttempts : Nat) :
    Option (Nat × Nat) :=
  allocLoop (attempts.take maxAttempts)

end Ports

namespace CameraStream

/-- `mapInsert` never yields the empty map. -/
theorem mapInsert_ne_nil (k : String) (l : List String) : mapInsert k l ≠ [] := by
  unfold mapInsert
  split
  · rename_i h
    intro hnil
    subst hnil
    simp at h
  · simp

@[simp] theorem RemoveClient_clients (s : State) (sess : String) :
    (RemoveClient s sess).clients = mapDelete sess s.clients := by
  unfold RemoveClient scheduleShutdown
  dsimp only
  split <;> [skip; rfl]
  split <;> rfl

@[simp] theorem RemoveClient_active (s : State) (sess : String) :
    (RemoveClient s sess).active = s.active := by
  unfold RemoveClient scheduleShutdown
  dsimp only
  split <;> [skip; rfl]
  split <;> rfl

@[simp] theorem RemoveClient_timerArmed (s : State) (sess : String) :
    (RemoveClient s sess).timerArmed =
      if mapDelete sess s.clients = [] ∧ s.active = true then true else s.timerArmed := by
  by_cases h1 : mapDelete sess s.clients = [] <;> by_cases h2 : s.active = true <;>
    simp_all [RemoveClient, scheduleShutdown, List.length_eq_zero]

@[simp] theorem timerFire_clients (s : State) :
    (timerFire s).clients = s.clients := by
  unfold timerFire stopStreamInternal
  dsimp only
  split <;> [skip; rfl]
  split <;> rfl

@[simp] theorem timerFire_timerArmed (s : State) :
    (timerFire s).timerArmed = false := rfl

@[simp] theorem timerFire_active (s : State) :
    (timerFire s).active = if s.clients = [] ∧ s.active = true then false else s.active := by
  by_cases h1 : s.clients = [] <;> by_cases h2 : s.active = true <;>
    simp_all [timerFire, stopStreamInternal, List.length_eq_zero]

@[simp] theorem timerFire_connecting (s : State) :
    (timerFire s).connecting =
      if s.clients = [] ∧ s.active = true then false else s.connecting := by
  by_cases h1 : s.clients = [] <;> by_cases h2 : s.active = true <;>
    simp_all [timerFire, stopStreamInternal, List.length_eq_zero]

end CameraStream

open CameraStream in
/-- C1: On every `CameraStream`, the listed operations preserve the
invariant "no attached clients ∧ active ⇒ shutdown timer armed":
`AddClient` cancels any pending shutdown timer before returning;
`RemoveClient` arms the timer exactly when the client count reaches 0
while `active` is true (and otherwise leaves the timer as it was); and
the timer callback re-checks, under the stream lock, that the client
count is still 0 and the stream still active, stopping the stream only
in that case and leaving it untouched otherwise. -/
theorem cameraStream_shutdown_timer_contract (s : CameraStream.State) (sess : String) :
    ((AddClient s sess).timerArmed = false ∧ ShutdownInv (AddClient s sess))
    ∧ (((RemoveClient s sess).clients = [] ∧ s.active = true →
          (RemoveClient s sess).timerArmed = true)
        ∧ (¬((RemoveClient s sess).clients = [] ∧ s.active = true) →
          (RemoveClient s sess).timerArmed = s.timerArmed)
        ∧ ShutdownInv (RemoveClient s sess))
    ∧ ((¬(s.clients = [] ∧ s.active = true) →
          (timerFire s).active = s.active ∧ (timerFire s).clients = s.clients
            ∧ (timerFire s).connecting = s.connecting)
        ∧ (s.clients = [] ∧ s.active = true → (timerFire s).active = false)
        ∧ ShutdownInv (timerFire s)) := by
  refine ⟨⟨rfl, ?_⟩, ⟨?_, ?_, ?_⟩, ⟨?_, ?_, ?_⟩⟩
  · intro ⟨hnil, _⟩
    exact absurd hnil (mapInsert_ne_nil sess s.clients)
  · intro ⟨hnil, hact⟩
    simp only [RemoveClient_clients] at hnil
    simp [hnil, hact]
  · intro hne
    simp only [RemoveClient_clients, RemoveClient_timerArmed] at hne ⊢
    rw [if_neg hne]
  · intro ⟨hnil, hact⟩
    simp only [RemoveClient_clients, RemoveClient_active] at hnil hact ⊢
    simp [ShutdownInv, hnil, hact]
  · intro hne
    simp [hne]
  · intro ⟨hnil, hact⟩
    simp [hnil, hact]
  · intro ⟨hnil, hact⟩
    simp only [timerFire_clients, timerFire_active] at hnil hact
    by_cases h : s.clients = [] ∧ s.active = true
    · rw [if_pos h] at hact
      exact absurd hact (by simp)
    · rw [if_neg h] at hact
      exact absurd ⟨hnil, hact⟩ h

/-- Witness for C1 at concrete states: removing the only client of an
active stream arms the timer, and the fired timer stops a still-empty,
still-active stream. -/
theorem cameraStream_shutdown_timer_contract_witness :
    (CameraStream.RemoveClient ⟨["a"], true, false, false⟩ "a").timerArmed = true
    ∧ (CameraStream.timerFire ⟨[], true, false, true⟩).active = false :=
  ⟨(cameraStream_shutdown_timer_contract ⟨["a"], true, false, false⟩ "a").2.1.1 (by decide),
   (cameraStream_shutdown_timer_contract ⟨[], true, false, true⟩ "a").2.2.2.1 (by decide)⟩

open Setup in
/-- C2 (counterexample): a client whose first SETUP fixed TCP
(`setupCount = 1`, `transportMode = tcp`) that then sends a SETUP whose
Transport header names `RTP/AVP` (UDP) is *not* rejected: the request
succeeds with 200 and the client's transport mode is overwritten to UDP. -/
theorem handleSetup_mode_change_not_rejected_cex :
    (handleSetup ⟨some 40000, true⟩
        { initialClient with transportMode := TransportMode.tcp, setupCount := 1 }
        "rtsp://localhost/cam/video" "RTP/AVP;unicast;client_port=50000-50001").status = 200
    ∧ (handleSetup ⟨some 40000, true⟩
        { initialClient with transportMode := TransportMode.tcp, setupCount := 1 }
        "rtsp://localhost/cam/video"
        "RTP/AVP;unicast;client_port=50000-50001").client.transportMode = TransportMode.udp := by
  decide

open Setup in
/-- C2 (amended): `handleSetup` performs no transport-mode consistency
check at all: every SETUP assigns the client's transport mode from its
own Transport header — TCP whenever the header contains `RTP/AVP/TCP`,
otherwise UDP whenever it contains `RTP/AVP` (even when the request is
then rejected for invalid client ports) — so a later SETUP naming a
different mode simply changes the mode instead of being rejected. -/
theorem handleSetup_transport_mode (env : Setup.SetupEnv) (c : Setup.RTSPClientState)
    (url transport : String) :
    (goContains transport "RTP/AVP/TCP" = true →
      (handleSetup env c url transport).client.transportMode = TransportMode.tcp)
    ∧ (goContains transport "RTP/AVP/TCP" = false →
        goContains transport "RTP/AVP" = true →
      (handleSetup env c url transport).client.transportMode = TransportMode.udp) := by
  constructor
  · intro h1
    by_cases he : transport = ""
    · subst he; exact absurd h1 (by decide)
    · cases hv : goContains url "/video" <;> cases ha : goContains url "/audio" <;>
        cases hb : goContains url "/backchannel" <;>
        simp [handleSetup, he, h1, hv, ha, hb]
  · intro h1 h2
    by_cases he : transport = ""
    · subst he; exact absurd h2 (by decide)
    · rcases henv : env.backchannelAlloc with _ | port <;> cases hok : env.addUDPOk <;>
        by_cases hp : (parsedClientPorts transport.data).1 = 0 <;>
        cases hv : goContains url "/video" <;> cases ha : goContains url "/audio" <;>
        cases hb : goContains url "/backchannel" <;>
        simp [handleSetup, he, h1, h2, hp, hv, ha, hb, henv, hok]

open Setup in
/-- Witness for C2's amended claim: a TCP SETUP sets TCP mode, and a UDP
SETUP on a TCP-mode client sets UDP mode. -/
theorem handleSetup_transport_mode_witness :
    goContains "RTP/AVP/TCP;unicast;interleaved=0-1" "RTP/AVP/TCP" = true
    ∧ (handleSetup ⟨none, false⟩ initialClient "u/video"
        "RTP/AVP/TCP;unicast;interleaved=0-1").client.transportMode = TransportMode.tcp
    ∧ (handleSetup ⟨none, true⟩
        { initialClient with transportMode := TransportMode.tcp } "u/video"
        "RTP/AVP;unicast;client_port=50000-50001").client.transportMode = TransportMode.udp :=
  ⟨by decide,
   (handleSetup_transport_mode ⟨none, false⟩ initialClient "u/video"
      "RTP/AVP/TCP;unicast;interleaved=0-1").1 (by decide),
   (handleSetup_transport_mode ⟨none, true⟩
      { initialClient with transportMode := TransportMode.tcp } "u/video"
      "RTP/AVP;unicast;client_port=50000-50001").2 (by decide) (by decide)⟩

open Setup in
/-- C9: a SETUP negotiated in UDP mode (Transport contains `RTP/AVP` but
not `RTP/AVP/TCP`) whose Transport header yields no parsable client
RTP port (the parsed port stays 0) is answered with 400 Bad Request, and
no sink of any kind is registered with the forwarder. -/
theorem handleSetup_udp_unparsed_ports_rejected (env : Setup.SetupEnv)
    (c : Setup.RTSPClientState) (url transport : String)
    (h1 : goContains transport "RTP/AVP" = true)
    (h2 : goContains transport "RTP/AVP/TCP" = false)
    (h3 : (parsedClientPorts transport.data).1 = 0) :
    (handleSetup env c url transport).status = 400
    ∧ (handleSetup env c url transport).regs = [] := by
  by_cases he : transport = ""
  · subst he; exact absurd h1 (by decide)
  · constructor <;> simp [handleSetup, he, h1, h2, h3]

open Setup in
/-- Witness for C9: the header `RTP/AVP;unicast` carries no
`client_port=`, parses to port 0 and is rejected with 400. -/
theorem handleSetup_udp_unparsed_ports_rejected_witness :
    goContains "RTP/AVP;unicast" "RTP/AVP" = true
    ∧ (parsedClientPorts "RTP/AVP;unicast".data).1 = 0
    ∧ (handleSetup ⟨some 40000, true⟩ initialClient "rtsp://h/cam/video"
        "RTP/AVP;unicast").status = 400 :=
  ⟨by decide, by decide,
   (handleSetup_udp_unparsed_ports_rejected ⟨some 40000, true⟩ initialClient
      "rtsp://h/cam/video" "RTP/AVP;unicast" (by decide) (by decide) (by decide)).1⟩

/-- C3 (counterexample): at Connected with a non-HEVC stream and
resolution "sd" the connection-state handler performs *no* action —
in particular it does not release the readiness waiter, so `Start`
does not return via the waiter for "sd". -/
theorem bridge_sd_not_ready_at_connected_cex :
    Bridge.onConnectionStateChange false "sd" Bridge.PCState.connected = [] := by
  decide

/-- C3 (amended): for a non-HEVC stream, when the peer connection
reaches Connected the handler, for resolution "hd", sends the
resolution frame (protocol 312, cmdValue 0) and then releases the
readiness waiter; for any other resolution (in particular "sd") it
does nothing — the readiness waiter is not released at Connected. -/
theorem bridge_connected_readiness (isHEVC : Bool) (resolution : String) :
    (isHEVC = false → resolution = "hd" →
      Bridge.onConnectionStateChange isHEVC resolution Bridge.PCState.connected
        = [Bridge.StateChangeAction.publish (Tuya.SendResolution 0),
           Bridge.StateChangeAction.waiterDone]
      ∧ (Tuya.SendResolution 0).protocol = 312
      ∧ (Tuya.SendResolution 0).payload
          = Tuya.FramePayload.resolution { mode := "webrtc", cmdValue := 0 })
    ∧ (isHEVC = false → resolution ≠ "hd" →
      Bridge.onConnectionStateChange isHEVC resolution Bridge.PCState.connected = []) := by
  constructor
  · intro h1 h2
    subst h1; subst h2
    exact ⟨by decide, rfl, rfl⟩
  · intro h1 h2
    subst h1
    simp [Bridge.onConnectionStateChange, h2]

/-- Witness for C3's amended claim at the two concrete resolutions. -/
theorem bridge_connected_readiness_witness :
    Bridge.onConnectionStateChange false "hd" Bridge.PCState.connected
      = [Bridge.StateChangeAction.publish (Tuya.SendResolution 0),
         Bridge.StateChangeAction.waiterDone]
    ∧ Bridge.onConnectionStateChange false "sd" Bridge.PCState.connected = [] :=
  ⟨((bridge_connected_readiness false "hd").1 rfl rfl).1,
   (bridge_connected_readiness false "sd").2 rfl (by decide)⟩

/-- C10: `Start` on an already-connected bridge fails with
"bridge already connected" without touching the state or performing any
negotiation step, and `Stop` on a bridge that is not connected returns
immediately without any teardown effect (no disconnect frame, no peer
connection close, no forwarder stop). -/
theorem bridge_start_stop_guards (env : Bridge.StartEnv) (st : Bridge.BridgeState) :
    (st.connected = true →
      Bridge.Start env st = (Except.error "bridge already connected", st, []))
    ∧ (st.connected = false → Bridge.Stop st = (st, [])) := by
  constructor
  · intro h
    simp [Bridge.Start, h]
  · intro h
    simp [Bridge.Stop, h]

/-- Witness for C10 at concrete bridge states. -/
theorem bridge_start_stop_guards_witness :
    Bridge.Start
        ⟨true, Except.ok (), Except.ok (), Except.ok (), Except.ok (),
          Except.ok ⟨0, [], []⟩, Except.ok (), Except.ok (), Except.ok ()⟩
        ⟨true, "hd", 1, false, true, true, true, true⟩
      = (Except.error "bridge already connected",
          ⟨true, "hd", 1, false, true, true, true, true⟩, [])
    ∧ Bridge.Stop ⟨false, "hd", 1, false, true, true, true, true⟩
      = (⟨false, "hd", 1, false, true, true, true, true⟩, []) :=
  ⟨(bridge_start_stop_guards
      ⟨true, Except.ok (), Except.ok (), Except.ok (), Except.ok (),
        Except.ok ⟨0, [], []⟩, Except.ok (), Except.ok (), Except.ok ()⟩
      ⟨true, "hd", 1, false, true, true, true, true⟩).1 rfl,
   (bridge_start_stop_guards
      ⟨true, Except.ok (), Except.ok (), Except.ok (), Except.ok (),
        Except.ok ⟨0, [], []⟩, Except.ok (), Except.ok (), Except.ok ()⟩
      ⟨false, "hd", 1, false, true, true, true, true⟩).2 rfl⟩

/-- C8 (counterexample): the MQTT client options built by
`NewMqttClient` have auto-reconnect *enabled* (`SetAutoReconnect(true)`,
mqtt.go:66), not disabled as the claim states. -/
theorem mqtt_autoreconnect_enabled_cex :
    (Tuya.NewMqttClientOptions "mqtt.example.com" "msid1" "pw").autoReconnect = true := rfl

/-- C8 (amended): the MQTT connection is established with auto-reconnect
enabled; a lost connection is still surfaced through the single-shot
`Connected` waiter (completed with the error, when not already
completed) and marks the client closed, after which every publish fails
with the closed-client error. -/
theorem mqtt_disconnect_terminal (url msid pw : String) (st : Tuya.MqttClientState)
    (err : Option String) (m : Tuya.MqttOutMessage) :
    (Tuya.NewMqttClientOptions url msid pw).autoReconnect = true
    ∧ (Tuya.onDisconnect st err).closed = true
    ∧ (st.connectedWaiter = none →
        (Tuya.onDisconnect st err).connectedWaiter
          = some (some (match err with | some e => e | none => "mqtt client disconnected")))
    ∧ Tuya.sendMqttMessage (Tuya.onDisconnect st err) m
        = Except.error "mqtt client is closed, send mqtt message fail" := by
  refine ⟨rfl, rfl, ?_, rfl⟩
  intro h
  simp [Tuya.onDisconnect, Tuya.waiterDone, h]

/-- Witness for C8's amended claim: a pending waiter is completed with
the generic disconnect error. -/
theorem mqtt_disconnect_terminal_witness :
    (Tuya.onDisconnect ⟨false, none⟩ none).connectedWaiter
      = some (some "mqtt client disconnected") :=
  (mqtt_disconnect_terminal "u" "m" "p" ⟨false, none⟩ none
      ⟨"disconnect", 302, Tuya.FramePayload.disconnect⟩).2.2.1 rfl

/-- C4: `ForwardVideoPacket` and `ForwardAudioPacket` marshal the
upstream packet exactly as received and hand identical bytes to every
registered sink; the marshalled bytes still carry the upstream packet's
SSRC and sequence number (no rewriting). -/
theorem forwarder_forwards_verbatim (clients : List Forwarder.RTPClient)
    (p : Forwarder.RTPPacket) :
    (∀ w ∈ Forwarder.ForwardVideoPacket clients p,
      Forwarder.bytesOfWrite w = Forwarder.marshalRTP p)
    ∧ (∀ w ∈ Forwarder.ForwardAudioPacket clients p,
      Forwarder.bytesOfWrite w = Forwarder.marshalRTP p)
    ∧ Forwarder.ssrcOfRTPBytes (Forwarder.marshalRTP p) = p.ssrc % 2 ^ 32
    ∧ Forwarder.seqOfRTPBytes (Forwarder.marshalRTP p) = p.sequenceNumber % 2 ^ 16
    ∧ (∀ c ∈ clients,
        (c.transportMode = Setup.TransportMode.udp → c.hasVideoConn = true →
          Forwarder.SinkWrite.udp c.sessionID (Forwarder.marshalRTP p)
            ∈ Forwarder.ForwardVideoPacket clients p)
        ∧ (c.transportMode = Setup.TransportMode.tcp → c.hasTCPConn = true →
          Forwarder.SinkWrite.tcpInterleaved c.sessionID c.videoRTPChannel
              (Forwarder.marshalRTP p)
            ∈ Forwarder.ForwardVideoPacket clients p)) := by
  have hne : ∀ c ∈ clients, ¬clients.length = 0 := by
    intro c hc h
    rw [List.length_eq_zero] at h
    subst h
    simp at hc
  refine ⟨?_, ?_, ?_, ?_, ?_⟩
  · intro w hw
    simp only [Forwarder.ForwardVideoPacket] at hw
    split at hw
    · simp at hw
    · simp only [List.mem_filterMap] at hw
      obtain ⟨c, _, hc⟩ := hw
      split_ifs at hc <;> cases hc <;> rfl
  · intro w hw
    simp only [Forwarder.ForwardAudioPacket] at hw
    split at hw
    · simp at hw
    · simp only [List.mem_filterMap] at hw
      obtain ⟨c, _, hc⟩ := hw
      split_ifs at hc <;> cases hc <;> rfl
  · have h : Forwarder.ssrcOfRTPBytes (Forwarder.marshalRTP p)
        = ((p.ssrc / 2 ^ 24 % 256 * 256 + p.ssrc / 2 ^ 16 % 256) * 256
            + p.ssrc / 2 ^ 8 % 256) * 256 + p.ssrc % 256 := rfl
    rw [h]
    omega
  · have h : Forwarder.seqOfRTPBytes (Forwarder.marshalRTP p)
        = p.sequenceNumber / 256 % 256 * 256 + p.sequenceNumber % 256 := rfl
    rw [h]
    omega
  · intro c hc
    constructor
    · intro h1 h2
      unfold Forwarder.ForwardVideoPacket
      rw [if_neg (hne c hc)]
      exact List.mem_filterMap.mpr ⟨c, hc, by simp [h1, h2]⟩
    · intro h1 h2
      unfold Forwarder.ForwardVideoPacket
      rw [if_neg (hne c hc)]
      exact List.mem_filterMap.mpr ⟨c, hc, by simp [h1, h2]⟩

/-- Witness for C4: one UDP and one TCP sink both receive the
marshalled upstream bytes. -/
theorem forwarder_forwards_verbatim_witness :
    Forwarder.bytesOfWrite
        (Forwarder.SinkWrite.udp "s1"
          (Forwarder.marshalRTP ⟨2, false, false, true, 96, 7, 90000, 1111, [], [], [1, 2, 3]⟩))
      = Forwarder.marshalRTP ⟨2, false, false, true, 96, 7, 90000, 1111, [], [], [1, 2, 3]⟩ :=
  (forwarder_forwards_verbatim
      [⟨"s1", Setup.TransportMode.udp, true, true, false, 0, 2, 4⟩,
       ⟨"s2", Setup.TransportMode.tcp, false, false, true, 0, 2, 4⟩]
      ⟨2, false, false, true, 96, 7, 90000, 1111, [], [], [1, 2, 3]⟩).1
    (Forwarder.SinkWrite.udp "s1"
      (Forwarder.marshalRTP ⟨2, false, false, true, 96, 7, 90000, 1111, [], [], [1, 2, 3]⟩))
    (by decide)

/-- C6: every interleaved RTP frame written to a TCP sink is
`0x24 ('$') | channel | length as big-endian 16 bits | payload`, the
payload length read back from the header matches the payload exactly,
and header plus payload go to the socket in a single write. -/
theorem sendInterleavedRTP_framing (channel : Nat) (rtpData : List Nat)
    (h : rtpData.length < 65536) :
    (Forwarder.sendInterleavedRTP channel rtpData).length = 1
    ∧ ∀ w ∈ Forwarder.sendInterleavedRTP channel rtpData,
        w.getD 0 0 = 0x24
        ∧ w.getD 1 0 = channel
        ∧ w.getD 2 0 * 256 + w.getD 3 0 = rtpData.length
        ∧ w.drop 4 = rtpData
        ∧ (w.drop 4).length = w.getD 2 0 * 256 + w.getD 3 0 := by
  refine ⟨rfl, ?_⟩
  intro w hw
  simp only [Forwarder.sendInterleavedRTP, List.mem_singleton] at hw
  subst hw
  refine ⟨rfl, rfl, ?_, rfl, ?_⟩
  · show rtpData.length / 256 % 256 * 256 + rtpData.length % 256 = rtpData.length
    omega
  · show rtpData.length = rtpData.length / 256 % 256 * 256 + rtpData.length % 256
    omega

/-- Witness for C6 on a concrete 5-byte payload sent on channel 2. -/
theorem sendInterleavedRTP_framing_witness :
    Forwarder.sendInterleavedRTP 2 [9, 8, 7, 6, 5] = [[36, 2, 0, 5, 9, 8, 7, 6, 5]]
    ∧ ∀ w ∈ Forwarder.sendInterleavedRTP 2 [9, 8, 7, 6, 5],
        w.getD 0 0 = 0x24
        ∧ w.getD 1 0 = 2
        ∧ w.getD 2 0 * 256 + w.getD 3 0 = [9, 8, 7, 6, 5].length
        ∧ w.drop 4 = [9, 8, 7, 6, 5]
        ∧ (w.drop 4).length = w.getD 2 0 * 256 + w.getD 3 0 :=
  ⟨by decide, (sendInterleavedRTP_framing 2 [9, 8, 7, 6, 5] (by decide)).2⟩

/-- A successful attempt yields an even RTP port and its successor. -/
theorem attemptPair_some_spec (a : Ports.AttemptOutcome) (r c : Nat)
    (h : Ports.attemptPair a = some (r, c)) : r % 2 = 0 ∧ c = r + 1 := by
  unfold Ports.attemptPair at h
  rcases ha : a.osPort with _ | p <;> rw [ha] at h
  · exact Option.noConfusion h
  · dsimp only at h
    split_ifs at h <;> cases h <;> constructor <;> omega

/-- The first successful attempt produces the loop's result. -/
theorem allocLoop_some_spec (l : List Ports.AttemptOutcome) (r c : Nat)
    (h : Ports.allocLoop l = some (r, c)) : ∃ a ∈ l, Ports.attemptPair a = some (r, c) := by
  induction l with
  | nil => exact Option.noConfusion h
  | cons a rest ih =>
    unfold Ports.allocLoop at h
    rcases hp : Ports.attemptPair a with _ | pr <;> rw [hp] at h
    · obtain ⟨b, hb, hpb⟩ := ih h
      exact ⟨b, List.mem_cons_of_mem a hb, hpb⟩
    · cases h
      exact ⟨a, List.mem_cons_self a rest, hp⟩

/-- The loop fails exactly when every attempt fails. -/
theorem allocLoop_none_iff (l : List Ports.AttemptOutcome) :
    Ports.allocLoop l = none ↔ ∀ a ∈ l, Ports.attemptPair a = none := by
  induction l with
  | nil => simp [Ports.allocLoop]
  | cons a rest ih =>
    unfold Ports.allocLoop
    rcases hp : Ports.attemptPair a with _ | pr
    · simp [hp, ih]
    · simp [hp]

/-- C7: every pair returned by `GetConsecutiveUDPPorts` has an even RTP
port with RTCP port exactly one above it; the allocator reports the
no-ports-available error only when every one of the `maxAttempts`
(10 at every call site) attempts it was budgeted has failed. -/
theorem ports_even_pair_and_attempt_budget (attempts : List Ports.AttemptOutcome)
    (maxAttempts : Nat) :
    (∀ r c, Ports.GetConsecutiveUDPPorts attempts maxAttempts = some (r, c) →
      r % 2 = 0 ∧ c = r + 1)
    ∧ (Ports.GetConsecutiveUDPPorts attempts maxAttempts = none ↔
        ∀ a ∈ attempts.take maxAttempts, Ports.attemptPair a = none)
    ∧ (maxAttempts ≤ attempts.length →
        Ports.GetConsecutiveUDPPorts attempts maxAttempts = none →
        (attempts.take maxAttempts).length = maxAttempts) := by
  refine ⟨?_, ?_, ?_⟩
  · intro r c h
    obtain ⟨a, _, ha⟩ := allocLoop_some_spec _ r c h
    exact attemptPair_some_spec a r c ha
  · exact allocLoop_none_iff _
  · intro hle _
    simp only [List.length_take]
    omega

/-- Witness for C7: one attempt sampling the odd port 40001 succeeds and
is rounded down to the even pair (40000, 40001). -/
theorem ports_even_pair_and_attempt_budget_witness :
    Ports.GetConsecutiveUDPPorts [⟨some 40001, true, true⟩] 10 = some (40000, 40001)
    ∧ 40000 % 2 = 0 ∧ 40001 = 40000 + 1 :=
  ⟨by decide,
   (ports_even_pair_and_attempt_budget [⟨some 40001, true, true⟩] 10).1 40000 40001 (by decide)⟩

/-- The high-water fields written by one `GetStreamType` iteration. -/
theorem scanStep_highestResType (st : Tuya.ScanState) (v : Tuya.VideoSkill) :
    (Tuya.scanStep st v).highestResType =
      if v.width * v.height > st.highestRes then v.streamType else st.highestResType := by
  unfold Tuya.scanStep
  by_cases h1 : v.width * v.height > st.highestRes <;>
    simp only [h1, if_true, if_false] <;> split <;> rfl

/-- The high-water resolution written by one `GetStreamType` iteration. -/
theorem scanStep_highestRes (st : Tuya.ScanState) (v : Tuya.VideoSkill) :
    (Tuya.scanStep st v).highestRes =
      if v.width * v.height > st.highestRes then v.width * v.height else st.highestRes := by
  unfold Tuya.scanStep
  by_cases h1 : v.width * v.height > st.highestRes <;>
    simp only [h1, if_true, if_false] <;> split <;> rfl

/-- The low-water type written by one `GetStreamType` iteration. -/
theorem scanStep_lowestResType (st : Tuya.ScanState) (v : Tuya.VideoSkill) :
    (Tuya.scanStep st v).lowestResType =
      if st.lowestRes = 0 ∨ v.width * v.height < st.lowestRes then v.streamType
      else st.lowestResType := by
  unfold Tuya.scanStep
  by_cases h1 : v.width * v.height > st.highestRes <;>
    by_cases h2 : st.lowestRes = 0 ∨ v.width * v.height < st.lowestRes <;>
    simp [h1, h2]

/-- The low-water resolution written by one `GetStreamType` iteration. -/
theorem scanStep_lowestRes (st : Tuya.ScanState) (v : Tuya.VideoSkill) :
    (Tuya.scanStep st v).lowestRes =
      if st.lowestRes = 0 ∨ v.width * v.height < st.lowestRes then v.width * v.height
      else st.lowestRes := by
  unfold Tuya.scanStep
  by_cases h1 : v.width * v.height > st.highestRes <;>
    by_cases h2 : st.lowestRes = 0 ∨ v.width * v.height < st.lowestRes <;>
    simp [h1, h2]

/-- `GetStreamType`'s loop tracks the maximal resolution: the final
high-water mark bounds every scanned video, never decreases, and is
either untouched or the resolution (and streamType) of some scanned
video. -/
theorem foldl_scan_high (vs : List Tuya.VideoSkill) (st : Tuya.ScanState) :
    st.highestRes ≤ (vs.foldl Tuya.scanStep st).highestRes
    ∧ (∀ v ∈ vs, v.width * v.height ≤ (vs.foldl Tuya.scanStep st).highestRes)
    ∧ ((vs.foldl Tuya.scanStep st).highestResType = st.highestResType
          ∧ (vs.foldl Tuya.scanStep st).highestRes = st.highestRes
        ∨ ∃ v ∈ vs, (vs.foldl Tuya.scanStep st).highestResType = v.streamType
            ∧ (vs.foldl Tuya.scanStep st).highestRes = v.width * v.height) := by
  induction vs generalizing st with
  | nil => exact ⟨le_refl _, by simp, Or.inl ⟨rfl, rfl⟩⟩
  | cons v rest ih =>
    simp only [List.foldl_cons]
    obtain ⟨ih1, ih2, ih3⟩ := ih (Tuya.scanStep st v)
    have ht := scanStep_highestResType st v
    have hr := scanStep_highestRes st v
    by_cases h : v.width * v.height > st.highestRes
    · rw [if_pos h] at ht hr
      refine ⟨by omega, ?_, ?_⟩
      · intro u hu
        rcases List.mem_cons.mp hu with rfl | hu
        · omega
        · exact ih2 u hu
      · rcases ih3 with ⟨h3t, h3r⟩ | ⟨u, hu, h3t, h3r⟩
        · exact Or.inr ⟨v, List.mem_cons_self _ _, by rw [h3t, ht], by rw [h3r, hr]⟩
        · exact Or.inr ⟨u, List.mem_cons_of_mem _ hu, h3t, h3r⟩
    · rw [if_neg h] at ht hr
      refine ⟨by omega, ?_, ?_⟩
      · intro u hu
        rcases List.mem_cons.mp hu with rfl | hu
        · omega
        · exact ih2 u hu
      · rcases ih3 with ⟨h3t, h3r⟩ | ⟨u, hu, h3t, h3r⟩
        · exact Or.inl ⟨by rw [h3t, ht], by rw [h3r, hr]⟩
        · exact Or.inr ⟨u, List.mem_cons_of_mem _ hu, h3t, h3r⟩

/-- `GetStreamType`'s loop tracks the minimal resolution: on videos of
positive resolution the final low-water mark is a lower bound on every
scanned video, is nonzero once seeded, and is either untouched or the
resolution (and streamType) of some scanned video. -/
theorem foldl_scan_low (vs : List Tuya.VideoSkill) (st : Tuya.ScanState)
    (hpos : ∀ v ∈ vs, 0 < v.width * v.height) :
    (((vs.foldl Tuya.scanStep st).lowestResType = st.lowestResType
          ∧ (vs.foldl Tuya.scanStep st).lowestRes = st.lowestRes)
        ∨ ∃ v ∈ vs, (vs.foldl Tuya.scanStep st).lowestResType = v.streamType
            ∧ (vs.foldl Tuya.scanStep st).lowestRes = v.width * v.height)
    ∧ (st.lowestRes ≠ 0 →
        (vs.foldl Tuya.scanStep st).lowestRes ≠ 0
        ∧ (vs.foldl Tuya.scanStep st).lowestRes ≤ st.lowestRes
        ∧ ∀ v ∈ vs, (vs.foldl Tuya.scanStep st).lowestRes ≤ v.width * v.height)
    ∧ (st.lowestRes = 0 → vs ≠ [] →
        (vs.foldl Tuya.scanStep st).lowestRes ≠ 0
        ∧ ∀ v ∈ vs, (vs.foldl Tuya.scanStep st).lowestRes ≤ v.width * v.height) := by
  induction vs generalizing st with
  | nil =>
    refine ⟨Or.inl ⟨rfl, rfl⟩, fun h => ⟨h, le_refl _, by simp⟩, fun _ h => absurd rfl h⟩
  | cons v rest ih =>
    simp only [List.foldl_cons]
    have hpv : 0 < v.width * v.height := hpos v (List.mem_cons_self _ _)
    obtain ⟨ih1, ih2, ih3⟩ :=
      ih (Tuya.scanStep st v) (fun u hu => hpos u (List.mem_cons_of_mem _ hu))
    have ht := scanStep_lowestResType st v
    have hr := scanStep_lowestRes st v
    by_cases h : st.lowestRes = 0 ∨ v.width * v.height < st.lowestRes
    · rw [if_pos h] at ht hr
      have hne : (Tuya.scanStep st v).lowestRes ≠ 0 := by omega
      obtain ⟨ihne, ihle, ihall⟩ := ih2 hne
      refine ⟨?_, ?_, ?_⟩
      · rcases ih1 with ⟨h1t, h1r⟩ | ⟨u, hu, h1t, h1r⟩
        · exact Or.inr ⟨v, List.mem_cons_self _ _, by rw [h1t, ht], by rw [h1r, hr]⟩
        · exact Or.inr ⟨u, List.mem_cons_of_mem _ hu, h1t, h1r⟩
      · intro hst0
        rcases h with h | h
        · exact absurd h hst0
        · refine ⟨ihne, by omega, ?_⟩
          intro u hu
          rcases List.mem_cons.mp hu with rfl | hu
          · omega
          · exact ihall u hu
      · intro hst0 _
        refine ⟨ihne, ?_⟩
        intro u hu
        rcases List.mem_cons.mp hu with rfl | hu
        · omega
        · exact ihall u hu
    · rw [if_neg h] at ht hr
      push_neg at h
      obtain ⟨h0, hge⟩ := h
      have hne : (Tuya.scanStep st v).lowestRes ≠ 0 := by omega
      obtain ⟨ihne, ihle, ihall⟩ := ih2 hne
      refine ⟨?_, ?_, ?_⟩
      · rcases ih1 with ⟨h1t, h1r⟩ | ⟨u, hu, h1t, h1r⟩
        · exact Or.inl ⟨by rw [h1t, ht], by rw [h1r, hr]⟩
        · exact Or.inr ⟨u, List.mem_cons_of_mem _ hu, h1t, h1r⟩
      · intro hst0
        refine ⟨ihne, by omega, ?_⟩
        intro u hu
        rcases List.mem_cons.mp hu with rfl | hu
        · omega
        · exact ihall u hu
      · intro hst0 _
        exact absurd hst0 h0

/-- `GetStreamType` at "hd" reads the loop's high-water streamType. -/
theorem GetStreamType_hd_eq (sk : Tuya.Skill) (h : ¬sk.videos.length = 0) :
    Tuya.GetStreamType (some sk) "hd"
      = (sk.videos.foldl Tuya.scanStep ⟨1, 0, 1, 0⟩).highestResType := by
  unfold Tuya.GetStreamType
  dsimp only
  rw [if_neg h]
  rw [if_pos (show ("hd" : String) = "hd" from rfl)]

/-- `GetStreamType` at "sd" reads the loop's low-water streamType. -/
theorem GetStreamType_sd_eq (sk : Tuya.Skill) (h : ¬sk.videos.length = 0) :
    Tuya.GetStreamType (some sk) "sd"
      = (sk.videos.foldl Tuya.scanStep ⟨1, 0, 1, 0⟩).lowestResType := by
  unfold Tuya.GetStreamType
  dsimp only
  rw [if_neg h]
  rw [if_neg (show ¬("sd" : String) = "hd" by decide),
    if_pos (show ("sd" : String) = "sd" from rfl)]

/-- On a nonempty skill with positive resolutions, "hd" resolves to the
streamType of a video of maximal resolution. -/
theorem GetStreamType_hd_max (sk : Tuya.Skill) (hne : sk.videos ≠ [])
    (hpos : ∀ v ∈ sk.videos, 0 < v.width * v.height) :
    ∃ v ∈ sk.videos, Tuya.GetStreamType (some sk) "hd" = v.streamType
      ∧ ∀ u ∈ sk.videos, u.width * u.height ≤ v.width * v.height := by
  have hlen : ¬sk.videos.length = 0 := by simpa [List.length_eq_zero] using hne
  obtain ⟨h1, h2, h3⟩ := foldl_scan_high sk.videos ⟨1, 0, 1, 0⟩
  rcases h3 with ⟨_, h3r⟩ | ⟨v, hv, h3t, h3r⟩
  · obtain ⟨v0, hv0⟩ := List.exists_mem_of_ne_nil sk.videos hne
    have ha := h2 v0 hv0
    have hb := hpos v0 hv0
    have hz : (⟨1, 0, 1, 0⟩ : Tuya.ScanState).highestRes = 0 := rfl
    omega
  · refine ⟨v, hv, ?_, ?_⟩
    · rw [GetStreamType_hd_eq sk hlen, h3t]
    · intro u hu
      have := h2 u hu
      omega

/-- On a nonempty skill with positive resolutions, "sd" resolves to the
streamType of a video of minimal resolution. -/
theorem GetStreamType_sd_min (sk : Tuya.Skill) (hne : sk.videos ≠ [])
    (hpos : ∀ v ∈ sk.videos, 0 < v.width * v.height) :
    ∃ v ∈ sk.videos, Tuya.GetStreamType (some sk) "sd" = v.streamType
      ∧ ∀ u ∈ sk.videos, v.width * v.height ≤ u.width * u.height := by
  have hlen : ¬sk.videos.length = 0 := by simpa [List.length_eq_zero] using hne
  obtain ⟨l1, l2, l3⟩ := foldl_scan_low sk.videos ⟨1, 0, 1, 0⟩ hpos
  have hinit : (⟨1, 0, 1, 0⟩ : Tuya.ScanState).lowestRes = 0 := rfl
  obtain ⟨hne0, hall⟩ := l3 hinit hne
  rcases l1 with ⟨h1t, h1r⟩ | ⟨v, hv, h1t, h1r⟩
  · rw [hinit] at h1r
    exact absurd h1r hne0
  · refine ⟨v, hv, ?_, ?_⟩
    · rw [GetStreamType_sd_eq sk hlen, h1t]
    · intro u hu
      have := hall u hu
      omega

/-- C5: the offer published by `SendOffer` carries, as `stream_type`,
the skill-resolved integer for non-HEVC and the fixed 0 (hd) / 1 (sd)
for HEVC, and `datachannel_enable = isHEVC`; the skill resolution
defaults to 1 without videos and otherwise picks the streamType of the
highest-resolution entry for "hd" and of the lowest-resolution entry
for "sd". -/
theorem sendOffer_stream_type_resolution (auth : String) (token : List String)
    (sdp : String) (skill : Option Tuya.Skill) (resolution : String) (isHEVC : Bool) :
    (Tuya.SendOffer auth token sdp resolution
        (Tuya.GetStreamType skill resolution) isHEVC).payload
      = Tuya.FramePayload.offer
          { mode := "webrtc", sdp := sdp,
            streamType :=
              if isHEVC then (if resolution = "hd" then 0 else 1)
              else Tuya.GetStreamType skill resolution,
            auth := auth, token := token, isReplay := 0, datachannelEnable := isHEVC }
    ∧ (skill = none → Tuya.GetStreamType skill resolution = 1)
    ∧ (∀ sk, skill = some sk → sk.videos = [] → Tuya.GetStreamType skill resolution = 1)
    ∧ (∀ sk, skill = some sk → sk.videos ≠ [] →
        (∀ v ∈ sk.videos, 0 < v.width * v.height) →
        (∃ v ∈ sk.videos, Tuya.GetStreamType skill "hd" = v.streamType
          ∧ ∀ u ∈ sk.videos, u.width * u.height ≤ v.width * v.height)
        ∧ (∃ v ∈ sk.videos, Tuya.GetStreamType skill "sd" = v.streamType
          ∧ ∀ u ∈ sk.videos, v.width * v.height ≤ u.width * u.height)) := by
  refine ⟨rfl, ?_, ?_, ?_⟩
  · intro h
    subst h
    rfl
  · intro sk h hvz
    subst h
    simp [Tuya.GetStreamType, hvz]
  · intro sk h hne hpos
    subst h
    exact ⟨GetStreamType_hd_max sk hne hpos, GetStreamType_sd_min sk hne hpos⟩

/-- Witness for C5 on a two-video skill (1080p streamType 2, 360p
streamType 4): "hd" resolves to 2, "sd" to 4, and the characterization
applies. -/
theorem sendOffer_stream_type_resolution_witness :
    Tuya.GetStreamType
        (some ⟨37, [⟨105⟩], [⟨2, 2, 1920, 1080⟩, ⟨4, 2, 640, 360⟩]⟩) "hd" = 2
    ∧ Tuya.GetStreamType
        (some ⟨37, [⟨105⟩], [⟨2, 2, 1920, 1080⟩, ⟨4, 2, 640, 360⟩]⟩) "sd" = 4
    ∧ ((∃ v ∈ [Tuya.VideoSkill.mk 2 2 1920 1080, Tuya.VideoSkill.mk 4 2 640 360],
          Tuya.GetStreamType
              (some ⟨37, [⟨105⟩], [⟨2, 2, 1920, 1080⟩, ⟨4, 2, 640, 360⟩]⟩) "hd"
            = v.streamType
          ∧ ∀ u ∈ [Tuya.VideoSkill.mk 2 2 1920 1080, Tuya.VideoSkill.mk 4 2 640 360],
              u.width * u.height ≤ v.width * v.height)
        ∧ (∃ v ∈ [Tuya.VideoSkill.mk 2 2 1920 1080, Tuya.VideoSkill.mk 4 2 640 360],
          Tuya.GetStreamType
              (some ⟨37, [⟨105⟩], [⟨2, 2, 1920, 1080⟩, ⟨4, 2, 640, 360⟩]⟩) "sd"
            = v.streamType
          ∧ ∀ u ∈ [Tuya.VideoSkill.mk 2 2 1920 1080, Tuya.VideoSkill.mk 4 2 640 360],
              v.width * v.height ≤ u.width * u.height)) :=
  ⟨by decide, by decide,
   (sendOffer_stream_type_resolution "auth" [] "sdp"
      (some ⟨37, [⟨105⟩], [⟨2, 2, 1920, 1080⟩, ⟨4, 2, 640, 360⟩]⟩) "hd" false).2.2.2
     ⟨37, [⟨105⟩], [⟨2, 2, 1920, 1080⟩, ⟨4, 2, 640, 360⟩]⟩ rfl (by decide) (by decide)⟩

end TuyaIPC
